import Mathlib

/-!
Formal model of the Void Drifter arcade game's core simulation code:
utility math (utils.js), the physics engine (force integration, screen
wrapping, circular collision with elastic impulse resolution), the base
entity damage logic, the player weapon heat state machine, projectile
spawning by the weapon classes (weapons.js), and asteroid fragmentation
(entities.js).

Numbers are modelled as real numbers.  JavaScript's falsy-default idiom
`v || d` on numbers (which substitutes `d` when `v` is `0` or absent) is
modelled by `jsOr` on ℝ and `orDefault` on `Option ℝ`.  Randomness
(`Utils.random`, `Utils.randomInt`) is modelled by oracle parameters that
range over the values the generator can produce.
-/

/-- A 2D vector, as the `{x, y}` records used throughout the source. -/
structure Vec where
  x : ℝ
  y : ℝ

/-- JavaScript `v || d` for a number `v` that is known to be present:
the default `d` is substituted exactly when `v = 0`. -/
noncomputable def jsOr (v d : ℝ) : ℝ :=
  if v = 0 then d else v

/-- JavaScript `v || d` for a possibly-absent number: absent and `0` both
give the default. -/
noncomputable def orDefault (v : Option ℝ) (d : ℝ) : ℝ :=
  match v with
  | none => d
  | some x => if x = 0 then d else x

namespace Utils

/-- Utils.distance: Euclidean distance between two points. -/
noncomputable def distance (x1 y1 x2 y2 : ℝ) : ℝ :=
  Real.sqrt ((x2 - x1) * (x2 - x1) + (y2 - y1) * (y2 - y1))

/-- Utils.wrapPosition: coordinates below `0` jump to `width`/`height`,
coordinates above `width`/`height` jump to `0`, in-range coordinates are
unchanged. -/
noncomputable def wrapPosition (x y width height : ℝ) : Vec :=
  let newX := if x < 0 then width else if x > width then 0 else x
  let newY := if y < 0 then height else if y > height then 0 else y
  ⟨newX, newY⟩

/-- Utils.vector.fromAngle: vector from an angle and a magnitude. -/
noncomputable def fromAngle (angle magnitude : ℝ) : Vec :=
  ⟨Real.cos angle * magnitude, Real.sin angle * magnitude⟩

/-- Utils.vector.magnitude. -/
noncomputable def magnitude (v : Vec) : ℝ :=
  Real.sqrt (v.x * v.x + v.y * v.y)

/-- Utils.vector.normalize: the zero vector normalizes to the zero vector. -/
noncomputable def normalize (v : Vec) : Vec :=
  if magnitude v = 0 then ⟨0, 0⟩ else ⟨v.x / magnitude v, v.y / magnitude v⟩

/-- Utils.circleCollision: two circles collide when the distance between
their centers is at most the sum of the radii. -/
noncomputable def circleCollision (x1 y1 r1 x2 y2 r2 : ℝ) : Prop :=
  distance x1 y1 x2 y2 ≤ r1 + r2

end Utils

/-- The physics component record produced by
`PhysicsEngine.createPhysicsComponent`. -/
structure Physics where
  mass : ℝ
  velocity : Vec
  acceleration : Vec
  force : Vec
  damping : ℝ
  maxVelocity : Option ℝ
  collisionRadius : ℝ
  restitution : ℝ
  screenWrap : Bool
  isStatic : Bool

/-- The options record accepted by `PhysicsEngine.createPhysicsComponent`;
absent fields are `none`. -/
structure PhysicsOptions where
  mass : Option ℝ := none
  damping : Option ℝ := none
  maxVelocity : Option ℝ := none
  collisionRadius : Option ℝ := none
  restitution : Option ℝ := none
  screenWrap : Option Bool := none
  isStatic : Option Bool := none

/-- The health record created by the `Entity` constructor when a `health`
option is supplied. -/
structure Health where
  current : ℝ
  max : ℝ
  invulnerable : Bool
  invulnerabilityTime : ℝ

/-- The fields of the base `Entity` class that the modelled methods read
and write: position, rotation, the alive flag, and the optional physics
and health components. -/
structure Entity where
  x : ℝ
  y : ℝ
  rotation : ℝ := 0
  alive : Bool := true
  physics : Option Physics := none
  health : Option Health := none

namespace PhysicsEngine

/-- The `PhysicsEngine` instance state: world size and the engine-level
default damping. -/
structure Engine where
  width : ℝ
  height : ℝ
  damping : ℝ

/-- The `PhysicsEngine` constructor: `new PhysicsEngine(width, height)`
sets the engine damping to `0.99`. -/
noncomputable def init (width height : ℝ) : Engine :=
  ⟨width, height, 0.99⟩

/-- PhysicsEngine.createPhysicsComponent: every numeric option is
defaulted through `||` (so `0` is replaced by the default),
`maxVelocity`'s default is `null`, `screenWrap` defaults to `true` unless
the option is literally `false`, and `isStatic` defaults to `false`. -/
noncomputable def createPhysicsComponent (options : PhysicsOptions) : Physics :=
  { mass := orDefault options.mass 1
    velocity := ⟨0, 0⟩
    acceleration := ⟨0, 0⟩
    force := ⟨0, 0⟩
    damping := orDefault options.damping 0.99
    maxVelocity :=
      match options.maxVelocity with
      | none => none
      | some m => if m = 0 then none else some m
    collisionRadius := orDefault options.collisionRadius 0
    restitution := orDefault options.restitution 0.8
    screenWrap := decide (options.screenWrap ≠ some false)
    isStatic := decide (options.isStatic = some true) }

/-- PhysicsEngine.updateEntity: force → acceleration → velocity (with
damping and optional speed cap) → position (with optional screen wrap),
then the accumulated force is reset.  A no-op when the entity has no
physics component.  The `physics.damping || this.damping` and
`if (physics.maxVelocity)` truthiness checks of the source are modelled
by `jsOr` and the `some m, m ≠ 0` test. -/
noncomputable def updateEntity (eng : Engine) (e : Entity) (deltaTime : ℝ) : Entity :=
  match e.physics with
  | none => e
  | some physics =>
    let dt := deltaTime / 1000
    let ax := physics.force.x / physics.mass
    let ay := physics.force.y / physics.mass
    let vx1 := physics.velocity.x + ax * dt
    let vy1 := physics.velocity.y + ay * dt
    let vx2 := vx1 * jsOr physics.damping eng.damping
    let vy2 := vy1 * jsOr physics.damping eng.damping
    let capped :=
      match physics.maxVelocity with
      | none => (vx2, vy2)
      | some mv =>
        if mv = 0 then (vx2, vy2)
        else
          let speed := Utils.magnitude ⟨vx2, vy2⟩
          if speed > mv then
            let n := Utils.normalize ⟨vx2, vy2⟩
            (n.x * mv, n.y * mv)
          else (vx2, vy2)
    let x1 := e.x + capped.1 * dt
    let y1 := e.y + capped.2 * dt
    let pos :=
      if physics.screenWrap then
        let w := Utils.wrapPosition x1 y1 eng.width eng.height
        (w.x, w.y)
      else (x1, y1)
    { e with
      x := pos.1
      y := pos.2
      physics := some { physics with
        acceleration := ⟨ax, ay⟩
        velocity := ⟨capped.1, capped.2⟩
        force := ⟨0, 0⟩ } }

/-- PhysicsEngine.checkCollision: false unless both entities carry a
physics component with a truthy (nonzero) collision radius, otherwise a
circle overlap test. -/
noncomputable def checkCollision (e1 e2 : Entity) : Prop :=
  match e1.physics, e2.physics with
  | some p1, some p2 =>
    p1.collisionRadius ≠ 0 ∧ p2.collisionRadius ≠ 0 ∧
      Utils.circleCollision e1.x e1.y p1.collisionRadius e2.x e2.y p2.collisionRadius
  | _, _ => False

/-- PhysicsEngine.handleCollision, returning the updated pair of
entities.  The source calls `checkCollision` first and returns unchanged
when it fails; since `checkCollision` is false whenever either physics
component is absent, matching on the components first is
behavior-identical.  On a zero-distance normal the resolution is skipped;
overlapping entities are separated half the penetration each; separating
velocities are left alone (positions still separated); otherwise the
elastic impulse is applied, scaled per body by the other body's mass. -/
noncomputable def handleCollision (e1 e2 : Entity) : Entity × Entity :=
  open Classical in
  match e1.physics, e2.physics with
  | some p1, some p2 =>
    if ¬ checkCollision e1 e2 then (e1, e2)
    else
      let dx := e2.x - e1.x
      let dy := e2.y - e1.y
      let distance := Real.sqrt (dx * dx + dy * dy)
      if distance = 0 then (e1, e2)
      else
        let nx := dx / distance
        let ny := dy / distance
        let overlap := (p1.collisionRadius + p2.collisionRadius) - distance
        let pos :=
          if overlap > 0 then
            let separation := overlap / 2
            ((e1.x - nx * separation, e1.y - ny * separation),
             (e2.x + nx * separation, e2.y + ny * separation))
          else ((e1.x, e1.y), (e2.x, e2.y))
        let relativeVelocityX := p2.velocity.x - p1.velocity.x
        let relativeVelocityY := p2.velocity.y - p1.velocity.y
        let velocityAlongNormal := relativeVelocityX * nx + relativeVelocityY * ny
        if velocityAlongNormal > 0 then
          ({ e1 with x := pos.1.1, y := pos.1.2 },
           { e2 with x := pos.2.1, y := pos.2.2 })
        else
          let restitution := min (jsOr p1.restitution 0.8) (jsOr p2.restitution 0.8)
          let impulseScalar := -(1 + restitution) * velocityAlongNormal
          let totalMass := p1.mass + p2.mass
          let impulse := impulseScalar / totalMass
          let impulseX := impulse * nx
          let impulseY := impulse * ny
          ({ e1 with
             x := pos.1.1
             y := pos.1.2
             physics := some { p1 with velocity :=
               ⟨p1.velocity.x - impulseX * p2.mass, p1.velocity.y - impulseY * p2.mass⟩ } },
           { e2 with
             x := pos.2.1
             y := pos.2.2
             physics := some { p2 with velocity :=
               ⟨p2.velocity.x + impulseX * p1.mass, p2.velocity.y + impulseY * p1.mass⟩ } })
  | _, _ => (e1, e2)

end PhysicsEngine

/-- The velocity stored in an entity's physics component (zero when the
component is absent); used to state conservation results. -/
noncomputable def velOf (e : Entity) : Vec :=
  match e.physics with
  | none => ⟨0, 0⟩
  | some p => p.velocity

namespace Entity

/-- Entity.takeDamage: no effect when there is no health component or the
entity is invulnerable; damage that drains health to `0` or below clamps
it at `0`, destroys the entity (alive := false) and reports death;
surviving damage opens a 500 ms invulnerability window.  Returns the
updated entity and whether it died. -/
noncomputable def takeDamage (e : Entity) (amount : ℝ) : Entity × Bool :=
  open Classical in
  match e.health with
  | none => (e, false)
  | some h =>
    if h.invulnerable then (e, false)
    else
      let cur := h.current - amount
      if cur ≤ 0 then
        ({ e with
           alive := false
           health := some { h with current := 0 } }, true)
      else
        ({ e with health := some { h with
            current := cur
            invulnerable := true
            invulnerabilityTime := 500 } }, false)

end Entity

/-- The fields of an owner entity that the weapon classes and the
`Projectile` constructor read: position, facing, physical size and the
optional physics component (whose velocity feeds the spawn bonus). -/
structure Owner where
  x : ℝ
  y : ℝ
  rotation : ℝ
  size : ℝ
  physics : Option Physics

/-- The options record passed to `new Projectile(x, y, options)`; absent
fields are `none`.  The `physics` field, when present (PlasmaCannon),
replaces the default projectile physics options wholesale via the object
spread in the constructor. -/
structure ProjectileOptions where
  rotation : Option ℝ := none
  owner : Option Owner := none
  damage : Option ℝ := none
  speed : Option ℝ := none
  lifetime : Option ℝ := none
  physics : Option PhysicsOptions := none

/-- The projectile entity fields set by the `Projectile` constructor. -/
structure Projectile where
  x : ℝ
  y : ℝ
  rotation : ℝ
  damage : ℝ
  speed : ℝ
  lifetime : ℝ
  owner : Option Owner
  physics : Physics

/-- The default physics options the `Projectile` constructor passes to
the base `Entity` constructor when the caller supplies none of its own:
mass 0.1, collision radius 3, screen wrap disabled. -/
def projectileDefaultPhysics : PhysicsOptions :=
  { mass := some 0.1, collisionRadius := some 3, screenWrap := some false }

/-- The `Projectile` constructor: rotation, damage, speed and lifetime
are `||`-defaulted (to 0, 25, 300 and 3000); the physics component is
built from the caller's physics options or the projectile defaults; the
initial velocity is the facing direction at projectile speed, plus half
the owner's velocity whenever an owner with a physics component was
passed — for any owner, player or not. -/
noncomputable def mkProjectile (x y : ℝ) (options : ProjectileOptions) : Projectile :=
  let rotation := orDefault options.rotation 0
  let speed := orDefault options.speed 300
  let physics0 := PhysicsEngine.createPhysicsComponent
    (options.physics.getD projectileDefaultPhysics)
  let velocity := Utils.fromAngle rotation speed
  let bonus : Vec :=
    match options.owner with
    | none => ⟨0, 0⟩
    | some ow =>
      match ow.physics with
      | none => ⟨0, 0⟩
      | some op => ⟨op.velocity.x * 0.5, op.velocity.y * 0.5⟩
  { x := x
    y := y
    rotation := rotation
    damage := orDefault options.damage 25
    speed := speed
    lifetime := orDefault options.lifetime 3000
    owner := options.owner
    physics := { physics0 with
      velocity := ⟨velocity.x + bonus.x, velocity.y + bonus.y⟩ } }

/-- The player weapon state record created by the `Player` constructor. -/
structure Weapon where
  heat : ℝ
  maxHeat : ℝ
  heatPerShot : ℝ
  cooldownRate : ℝ
  overheated : Bool
  fireRate : ℝ
  lastFired : ℝ

/-- The player weapon's initial state from the `Player` constructor:
heat 0, max heat 100, 15 heat per shot, cooldown 30 per second,
not overheated, 200 ms fire rate, last fired at 0. -/
noncomputable def playerInitialWeapon : Weapon :=
  { heat := 0, maxHeat := 100, heatPerShot := 15, cooldownRate := 30
    overheated := false, fireRate := 200, lastFired := 0 }

/-- The fields of the `Player` that `Player.fire` reads: position,
facing, ship size, the weapon state and the physics component (the
player passes itself as the projectile's owner). -/
structure Player where
  x : ℝ
  y : ℝ
  rotation : ℝ
  size : ℝ
  weapon : Weapon
  physics : Option Physics

/-- The owner record a player presents to the `Projectile` constructor. -/
def Player.toOwner (pl : Player) : Owner :=
  ⟨pl.x, pl.y, pl.rotation, pl.size, pl.physics⟩

/-- Player.fire at time `now` (the source reads `Date.now()`): returns
unchanged with no projectile when the fire rate has not elapsed or the
weapon is overheated; otherwise adds heat (latching the overheat flag at
max heat), spawns a projectile offset along the facing by the ship size
with damage 25 and speed 400, and stamps the last-fired time. -/
noncomputable def playerFire (pl : Player) (now : ℝ) : Player × Option Projectile :=
  open Classical in
  if now - pl.weapon.lastFired < pl.weapon.fireRate ∨ pl.weapon.overheated = true then
    (pl, none)
  else
    let heat := pl.weapon.heat + pl.weapon.heatPerShot
    let overheated := if heat ≥ pl.weapon.maxHeat then true else pl.weapon.overheated
    let projectileX := pl.x + Real.cos pl.rotation * pl.size
    let projectileY := pl.y + Real.sin pl.rotation * pl.size
    let projectile := mkProjectile projectileX projectileY
      { rotation := some pl.rotation
        owner := some pl.toOwner
        damage := some 25
        speed := some 400 }
    ({ pl with weapon := { pl.weapon with
        heat := heat
        overheated := overheated
        lastFired := now } }, some projectile)

/-- Player.updateWeapon (with auto-fire disabled): heat decays at the
cooldown rate, clamped at 0; the overheated flag clears once heat falls
below 30% of max heat. -/
noncomputable def updateWeapon (w : Weapon) (deltaTime : ℝ) : Weapon :=
  open Classical in
  let w1 :=
    if w.heat > 0 then
      { w with heat := max 0 (w.heat - w.cooldownRate * (deltaTime / 1000)) }
    else w
  if w1.overheated = true ∧ w1.heat < w1.maxHeat * 0.3 then
    { w1 with overheated := false }
  else w1

/-- Iterated `Player.fire` at a list of times, counting the projectiles
actually spawned. -/
noncomputable def fireMany (pl : Player) (times : List ℝ) : Player × ℕ :=
  match times with
  | [] => (pl, 0)
  | t :: ts =>
    let r := playerFire pl t
    let rest := fireMany r.1 ts
    (rest.1, (if r.2.isSome then 1 else 0) + rest.2)

/-- The configuration fields of a weapons.js `Weapon` instance that its
`fire` method reads. -/
structure WeaponCfg where
  fireRate : ℝ
  lastFired : ℝ
  damage : ℝ
  projectileSpeed : ℝ
  projectileLifetime : ℝ

/-- Blaster.fire at time `now` (canFire requires `now - lastFired ≥
fireRate`): spawns one projectile offset along the owner's facing by the
owner's size, passing the owner (so the constructor's half-owner-velocity
bonus applies whenever the owner has a physics component), and stamps the
last-fired time.  Enemy ships fire through this class. -/
noncomputable def blasterFire (cfg : WeaponCfg) (ow : Owner) (now : ℝ) :
    WeaponCfg × Option Projectile :=
  open Classical in
  if now - cfg.lastFired < cfg.fireRate then (cfg, none)
  else
    let projectileX := ow.x + Real.cos ow.rotation * ow.size
    let projectileY := ow.y + Real.sin ow.rotation * ow.size
    let projectile := mkProjectile projectileX projectileY
      { rotation := some ow.rotation
        owner := some ow
        damage := some cfg.damage
        speed := some cfg.projectileSpeed
        lifetime := some cfg.projectileLifetime }
    ({ cfg with lastFired := now }, some projectile)

/-- The per-size data table `Asteroid.getSizeData`; unknown size strings
fall back to the large entry. -/
noncomputable def getSizeData (size : String) : ℝ × ℝ × ℝ × ℝ × ℝ :=
  if size = "large" then (40, 100, 3, 80, 20)
  else if size = "medium" then (25, 50, 2, 120, 50)
  else if size = "small" then (15, 25, 1, 160, 100)
  else (40, 100, 3, 80, 20)

/-- The asteroid fields the fragmentation logic reads and writes:
position, size class, radius and the alive flag. -/
structure Asteroid where
  x : ℝ
  y : ℝ
  size : String
  radius : ℝ
  alive : Bool

/-- The `Asteroid` constructor's effect on the modelled fields: radius
from the size table, alive.  (The constructor also rolls random velocity,
spin and outline, which the fragmentation claims do not touch.) -/
noncomputable def mkAsteroid (x y : ℝ) (size : String) : Asteroid :=
  { x := x, y := y, size := size, radius := (getSizeData size).1, alive := true }

/-- Asteroid.createFragments, with the random draws passed in as oracle
parameters: `count` is the outcome of `Utils.randomInt(2, 3)` (used only
for a large asteroid) and `offsets i` the outcome of
`Utils.random(-0.5, 0.5)` for fragment `i`.  Large asteroids shed
`count` medium fragments ring-spread at half the radius; medium shed two
small fragments; small shed none. -/
noncomputable def createFragments (a : Asteroid) (count : ℕ) (offsets : ℕ → ℝ) :
    List Asteroid :=
  if a.size = "large" then
    (List.range count).map (fun i =>
      let angle := Real.pi * 2 * i / count + offsets i
      let distance := a.radius * 0.5
      mkAsteroid (a.x + Real.cos angle * distance) (a.y + Real.sin angle * distance)
        "medium")
  else if a.size = "medium" then
    (List.range 2).map (fun i =>
      let angle := Real.pi * i + offsets i
      let distance := a.radius * 0.5
      mkAsteroid (a.x + Real.cos angle * distance) (a.y + Real.sin angle * distance)
        "small")
  else []

/-- Asteroid.destroy: clears the alive flag and returns the fragments. -/
noncomputable def asteroidDestroy (a : Asteroid) (count : ℕ) (offsets : ℕ → ℝ) :
    Asteroid × List Asteroid :=
  ({ a with alive := false }, createFragments a count offsets)

/-- Helper: wrapping is the identity on positions already inside the
closed screen box. -/
theorem wrapPosition_of_le (x y w h : ℝ) (hx0 : 0 ≤ x) (hxw : x ≤ w)
    (hy0 : 0 ≤ y) (hyh : y ≤ h) : Utils.wrapPosition x y w h = ⟨x, y⟩ := by
  simp only [Utils.wrapPosition]
  rw [if_neg (not_lt.mpr hx0), if_neg (not_lt.mpr hxw),
    if_neg (not_lt.mpr hy0), if_neg (not_lt.mpr hyh)]

/-- Helper: for a nonnegative screen size the wrapped position lies in
the closed box from the origin to the screen size. -/
theorem wrapPosition_mem (x y w h : ℝ) (hw : 0 ≤ w) (hh : 0 ≤ h) :
    0 ≤ (Utils.wrapPosition x y w h).x ∧ (Utils.wrapPosition x y w h).x ≤ w ∧
    0 ≤ (Utils.wrapPosition x y w h).y ∧ (Utils.wrapPosition x y w h).y ≤ h := by
  simp only [Utils.wrapPosition]
  refine ⟨?_, ?_, ?_, ?_⟩ <;> (split_ifs <;> linarith)

/-- Claim C4: for every width and height above 1, wrapPosition sends
x = width+1 to x = 0 and x = -1 to x = width, and symmetrically sends
y = height+1 to y = 0 and y = -1 to y = height, leaving the in-range
coordinate unchanged. -/
theorem wrapPosition_edge_jumps (w h x y : ℝ) (hw : 1 < w) (hh : 1 < h) :
    (0 ≤ y → y ≤ h →
      Utils.wrapPosition (w + 1) y w h = ⟨0, y⟩ ∧
      Utils.wrapPosition (-1) y w h = ⟨w, y⟩) ∧
    (0 ≤ x → x ≤ w →
      Utils.wrapPosition x (h + 1) w h = ⟨x, 0⟩ ∧
      Utils.wrapPosition x (-1) w h = ⟨x, h⟩) := by
  refine ⟨fun hy0 hyh => ⟨?_, ?_⟩, fun hx0 hxw => ⟨?_, ?_⟩⟩ <;>
    simp only [Utils.wrapPosition] <;> split_ifs <;> first
      | rfl
      | (exfalso; linarith)

/-- Witness for C4 at width 800, height 600. -/
theorem wrapPosition_edge_jumps_witness :
    Utils.wrapPosition 801 5 800 600 = ⟨0, 5⟩ ∧
    Utils.wrapPosition (-1) 5 800 600 = ⟨800, 5⟩ := by
  have h := wrapPosition_edge_jumps 800 600 7 5 (by norm_num) (by norm_num)
  have h2 := h.1 (by norm_num) (by norm_num)
  exact ⟨by have := h2.1; norm_num at this ⊢; exact this, h2.2⟩

/-- Claim C2: on a base entity with health current 10, max 100, not
invulnerable, takeDamage 15 clamps health at 0, destroys the entity and
reports death; a second takeDamage call leaves the entity's state
unchanged; and an invulnerable entity ignores damage entirely. -/
theorem takeDamage_lethal_then_inert (e : Entity) (t : ℝ)
    (hh : e.health = some ⟨10, 100, false, t⟩) :
    ((Entity.takeDamage e 15).2 = true ∧
     (Entity.takeDamage e 15).1.health = some ⟨0, 100, false, t⟩ ∧
     (Entity.takeDamage e 15).1.alive = false) ∧
    (∀ amount2, 0 ≤ amount2 →
      (Entity.takeDamage (Entity.takeDamage e 15).1 amount2).1 =
        (Entity.takeDamage e 15).1) ∧
    (∀ e2 : Entity, ∀ h2 : Health, ∀ amount : ℝ, e2.health = some h2 →
      h2.invulnerable = true → Entity.takeDamage e2 amount = (e2, false)) := by
  obtain ⟨ex, ey, er, ea, ep, eh⟩ := e
  simp only at hh
  subst hh
  have h1 : Entity.takeDamage ⟨ex, ey, er, ea, ep, some ⟨10, 100, false, t⟩⟩ 15 =
      (⟨ex, ey, er, false, ep, some ⟨0, 100, false, t⟩⟩, true) := by
    norm_num [Entity.takeDamage]
  refine ⟨?_, ?_, ?_⟩
  · rw [h1]
    exact ⟨rfl, rfl, rfl⟩
  · intro amount2 ha
    rw [h1]
    norm_num [Entity.takeDamage]
    rw [if_pos ha]
  · intro e2 h2 amount hh2 hinv
    obtain ⟨fx, fy, fr, fa, fp, fh⟩ := e2
    simp only at hh2
    subst hh2
    simp [Entity.takeDamage, hinv]

/-- A concrete entity with 10 of 100 health, used to instantiate the
damage claim. -/
noncomputable def damagedEntity : Entity :=
  { x := 0, y := 0, health := some ⟨10, 100, false, 0⟩ }

/-- Witness for C2 at a concrete entity. -/
theorem takeDamage_lethal_then_inert_witness :
    (Entity.takeDamage damagedEntity 15).2 = true ∧
    (Entity.takeDamage (Entity.takeDamage damagedEntity 15).1 15).1 =
      (Entity.takeDamage damagedEntity 15).1 :=
  have h := takeDamage_lethal_then_inert damagedEntity 0 rfl
  ⟨h.1.1, h.2.1 15 (by norm_num)⟩

/-- Claim C8 (amended): every component built by createPhysicsComponent
has nonzero mass — an absent or zero mass option becomes the default 1,
and a nonnegative mass option yields positive mass — but there is no
assertion: a negative mass option is stored unchanged.  updateEntity is a
no-op on entities lacking a physics component, so the force-over-mass
division never divides by zero mass for constructor-produced
components. -/
theorem createPhysicsComponent_mass_nonzero :
    (∀ o : PhysicsOptions, (PhysicsEngine.createPhysicsComponent o).mass ≠ 0) ∧
    (∀ o : PhysicsOptions, o.mass = none →
      (PhysicsEngine.createPhysicsComponent o).mass = 1) ∧
    (∀ o : PhysicsOptions, ∀ m : ℝ, o.mass = some m → 0 ≤ m →
      0 < (PhysicsEngine.createPhysicsComponent o).mass) ∧
    (∀ eng : PhysicsEngine.Engine, ∀ e : Entity, ∀ dt : ℝ, e.physics = none →
      PhysicsEngine.updateEntity eng e dt = e) := by
  refine ⟨?_, ?_, ?_, ?_⟩
  · intro o
    simp only [PhysicsEngine.createPhysicsComponent, orDefault]
    match o.mass with
    | none => norm_num
    | some m =>
      by_cases hm : m = (0 : ℝ)
      · simp [hm]
      · simp [hm]
  · intro o ho
    simp [PhysicsEngine.createPhysicsComponent, orDefault, ho]
  · intro o m hm h0
    simp only [PhysicsEngine.createPhysicsComponent, orDefault, hm]
    by_cases hz : m = (0 : ℝ)
    · simp [hz]
    · rw [if_neg hz]
      exact lt_of_le_of_ne h0 (Ne.symm hz)
  · intro eng e dt hp
    simp [PhysicsEngine.updateEntity, hp]

/-- Counterexample for C8 as stated: a negative mass option passes
through createPhysicsComponent unchecked, so the produced component's
mass is not positive. -/
theorem createPhysicsComponent_negative_mass_counterexample :
    (PhysicsEngine.createPhysicsComponent { mass := some (-1) }).mass = -1 ∧
    ¬ (0 < (PhysicsEngine.createPhysicsComponent { mass := some (-1) }).mass) := by
  norm_num [PhysicsEngine.createPhysicsComponent, orDefault]

/-- Witness for C8 at concrete inputs. -/
theorem createPhysicsComponent_mass_nonzero_witness :
    (PhysicsEngine.createPhysicsComponent { mass := some 2 }).mass ≠ 0 ∧
    0 < (PhysicsEngine.createPhysicsComponent { mass := some 2 }).mass ∧
    PhysicsEngine.updateEntity (PhysicsEngine.init 800 600) { x := 1, y := 2 } 16 =
      { x := 1, y := 2 } :=
  ⟨createPhysicsComponent_mass_nonzero.1 _,
   createPhysicsComponent_mass_nonzero.2.2.1 _ 2 rfl (by norm_num),
   createPhysicsComponent_mass_nonzero.2.2.2 _ _ _ rfl⟩

/-- Claim C10: createPhysicsComponent silently replaces falsy option
values with defaults — damping 0 becomes 0.99, restitution 0 becomes
0.8, mass 0 becomes 1 — so no constructed component has damping 0 or
restitution 0; and updateEntity substitutes the engine default 0.99
whenever a component's damping field is 0, making the step agree in
position and velocity with the same step at damping 0.99. -/
theorem createPhysicsComponent_falsy_defaults :
    (∀ o : PhysicsOptions,
      (o.damping = some 0 → (PhysicsEngine.createPhysicsComponent o).damping = 0.99) ∧
      (o.restitution = some 0 →
        (PhysicsEngine.createPhysicsComponent o).restitution = 0.8) ∧
      (o.mass = some 0 → (PhysicsEngine.createPhysicsComponent o).mass = 1) ∧
      (PhysicsEngine.createPhysicsComponent o).damping ≠ 0 ∧
      (PhysicsEngine.createPhysicsComponent o).restitution ≠ 0) ∧
    (∀ w h : ℝ, ∀ e : Entity, ∀ p : Physics, ∀ dt : ℝ, e.physics = some p →
      p.damping = 0 →
      ((PhysicsEngine.updateEntity (PhysicsEngine.init w h) e dt).x =
        (PhysicsEngine.updateEntity (PhysicsEngine.init w h)
          { e with physics := some { p with damping := 0.99 } } dt).x ∧
       (PhysicsEngine.updateEntity (PhysicsEngine.init w h) e dt).y =
        (PhysicsEngine.updateEntity (PhysicsEngine.init w h)
          { e with physics := some { p with damping := 0.99 } } dt).y ∧
       velOf (PhysicsEngine.updateEntity (PhysicsEngine.init w h) e dt) =
        velOf (PhysicsEngine.updateEntity (PhysicsEngine.init w h)
          { e with physics := some { p with damping := 0.99 } } dt))) := by
  constructor
  · intro o
    refine ⟨?_, ?_, ?_, ?_, ?_⟩
    · intro hd
      norm_num [PhysicsEngine.createPhysicsComponent, orDefault, hd]
    · intro hr
      norm_num [PhysicsEngine.createPhysicsComponent, orDefault, hr]
    · intro hm
      norm_num [PhysicsEngine.createPhysicsComponent, orDefault, hm]
    · simp only [PhysicsEngine.createPhysicsComponent, orDefault]
      match o.damping with
      | none => norm_num
      | some d =>
        by_cases hz : d = (0 : ℝ)
        · simp [hz]; norm_num
        · simp [hz]
    · simp only [PhysicsEngine.createPhysicsComponent, orDefault]
      match o.restitution with
      | none => norm_num
      | some r =>
        by_cases hz : r = (0 : ℝ)
        · simp [hz]; norm_num
        · simp [hz]
  · intro w h e p dt hp hd
    have h1 : jsOr p.damping (PhysicsEngine.init w h).damping = 0.99 := by
      simp [jsOr, hd, PhysicsEngine.init]
    have h2 : jsOr (0.99 : ℝ) (PhysicsEngine.init w h).damping = 0.99 := by
      norm_num [jsOr, PhysicsEngine.init]
    simp only [PhysicsEngine.updateEntity, hp, velOf, h1, h2]
    exact ⟨trivial, trivial, trivial⟩

/-- A physics component with damping 0 used to instantiate C10. -/
noncomputable def dampingZeroComponent : Physics :=
  { mass := 1, velocity := ⟨5, 7⟩, acceleration := ⟨0, 0⟩, force := ⟨0, 0⟩
    damping := 0, maxVelocity := none, collisionRadius := 0, restitution := 0.8
    screenWrap := false, isStatic := false }

/-- Witness for C10 at concrete inputs. -/
theorem createPhysicsComponent_falsy_defaults_witness :
    (PhysicsEngine.createPhysicsComponent { damping := some 0 }).damping = 0.99 ∧
    (PhysicsEngine.createPhysicsComponent { restitution := some 0 }).restitution = 0.8 ∧
    (PhysicsEngine.createPhysicsComponent { mass := some 0 }).mass = 1 ∧
    velOf (PhysicsEngine.updateEntity (PhysicsEngine.init 800 600)
        { x := 0, y := 0, physics := some dampingZeroComponent } 16) =
      velOf (PhysicsEngine.updateEntity (PhysicsEngine.init 800 600)
        { x := 0, y := 0, physics := some { dampingZeroComponent with damping := 0.99 } } 16) :=
  ⟨(createPhysicsComponent_falsy_defaults.1 _).1 rfl,
   (createPhysicsComponent_falsy_defaults.1 _).2.1 rfl,
   (createPhysicsComponent_falsy_defaults.1 _).2.2.1 rfl,
   (createPhysicsComponent_falsy_defaults.2 800 600 _ dampingZeroComponent 16 rfl rfl).2.2⟩

/-- Claim C9: with zero accumulated force, damping 1 and no speed cap,
one updateEntity step leaves the velocity unchanged, advances the
position by exactly velocity times dt/1000, and resets the force —
provided screen wrap is disabled or the new position does not trigger
wrapping.  (The data model guarantees positive mass; nonzero mass keeps
the force-over-mass division meaningful.) -/
theorem updateEntity_free_drift (eng : PhysicsEngine.Engine) (e : Entity) (p : Physics)
    (dt : ℝ) (hp : e.physics = some p) (hf : p.force = ⟨0, 0⟩) (hd : p.damping = 1)
    (hmv : p.maxVelocity = none) (_hm : p.mass ≠ 0)
    (hw : p.screenWrap = false ∨
      (0 ≤ e.x + p.velocity.x * (dt / 1000) ∧ e.x + p.velocity.x * (dt / 1000) ≤ eng.width ∧
       0 ≤ e.y + p.velocity.y * (dt / 1000) ∧ e.y + p.velocity.y * (dt / 1000) ≤ eng.height)) :
    (PhysicsEngine.updateEntity eng e dt).x = e.x + p.velocity.x * (dt / 1000) ∧
    (PhysicsEngine.updateEntity eng e dt).y = e.y + p.velocity.y * (dt / 1000) ∧
    (PhysicsEngine.updateEntity eng e dt).physics =
      some { p with acceleration := ⟨0, 0⟩, force := ⟨0, 0⟩ } := by
  have hfx : p.force.x = 0 := by rw [hf]
  have hfy : p.force.y = 0 := by rw [hf]
  have hj : jsOr p.damping eng.damping = 1 := by simp [jsOr, hd]
  simp only [PhysicsEngine.updateEntity, hp, hmv, hfx, hfy, hj, zero_div, zero_mul,
    add_zero, mul_one]
  rcases hw with hsw | ⟨hx0, hxw, hy0, hyh⟩
  · simp only [hsw, Bool.false_eq_true, if_false]
    refine ⟨?_, ?_, ?_⟩ <;> first | rfl | trivial
  · by_cases hsw : p.screenWrap = true
    · simp only [hsw, if_true]
      rw [wrapPosition_of_le _ _ _ _ hx0 hxw hy0 hyh]
      refine ⟨?_, ?_, ?_⟩ <;> first | rfl | trivial
    · simp only [hsw, Bool.false_eq_true, if_false]
      refine ⟨?_, ?_, ?_⟩ <;> first | rfl | trivial

/-- A concrete free-drifting physics component for instantiating C9. -/
noncomputable def driftComponent : Physics :=
  { mass := 1, velocity := ⟨10, -20⟩, acceleration := ⟨0, 0⟩, force := ⟨0, 0⟩
    damping := 1, maxVelocity := none, collisionRadius := 0, restitution := 0.8
    screenWrap := true, isStatic := false }

/-- A concrete entity carrying driftComponent. -/
noncomputable def driftEntity : Entity :=
  { x := 100, y := 100, physics := some driftComponent }

/-- Witness for C9 at a concrete drifting entity on an 800 by 600
screen with a one-second step. -/
theorem updateEntity_free_drift_witness :
    (PhysicsEngine.updateEntity (PhysicsEngine.init 800 600) driftEntity 1000).x =
      100 + 10 * (1000 / 1000) ∧
    (PhysicsEngine.updateEntity (PhysicsEngine.init 800 600) driftEntity 1000).physics =
      some { driftComponent with acceleration := ⟨0, 0⟩, force := ⟨0, 0⟩ } :=
  have h := updateEntity_free_drift (PhysicsEngine.init 800 600) driftEntity
    driftComponent 1000 rfl rfl rfl rfl (by norm_num [driftComponent])
    (Or.inr (by norm_num [driftEntity, driftComponent, PhysicsEngine.init]))
  ⟨h.1, h.2.2⟩

/-- An entity moving left fast enough to leave the screen in one step,
used to exhibit the wrap behavior at the screen edge. -/
noncomputable def fastLeftEntity : Entity :=
  { x := 0, y := 0
    physics := some
      { mass := 1, velocity := ⟨-1000, 0⟩, acceleration := ⟨0, 0⟩, force := ⟨0, 0⟩
        damping := 1, maxVelocity := none, collisionRadius := 0, restitution := 0.8
        screenWrap := true, isStatic := false } }

/-- Counterexample for C3 as stated: after one integration step on an
800 by 600 screen, an entity that left the screen on the left lands at
x = 800 = width, which is outside the half-open range and is not the
overshoot taken modulo the width. -/
theorem updateEntity_wrap_counterexample :
    (PhysicsEngine.updateEntity (PhysicsEngine.init 800 600) fastLeftEntity 1000).x = 800 ∧
    ¬ ((PhysicsEngine.updateEntity (PhysicsEngine.init 800 600) fastLeftEntity 1000).x <
        (PhysicsEngine.init 800 600).width) := by
  norm_num [PhysicsEngine.updateEntity, PhysicsEngine.init, fastLeftEntity, jsOr,
    Utils.wrapPosition]

/-- Claim C3 (amended): with screen wrap enabled and a nonnegative
screen size, one updateEntity step maps the position into the closed box
from the origin to (width, height) — the boundary values width and
height themselves are reachable — and wrapPosition discards the
overshoot: any coordinate below 0 jumps to exactly width (resp. height)
and any coordinate above width (resp. height) jumps to exactly 0. -/
theorem updateEntity_wrap_closed_box :
    (∀ eng : PhysicsEngine.Engine, ∀ e : Entity, ∀ p : Physics, ∀ dt : ℝ,
      e.physics = some p → p.screenWrap = true → 0 ≤ eng.width → 0 ≤ eng.height →
      (0 ≤ (PhysicsEngine.updateEntity eng e dt).x ∧
       (PhysicsEngine.updateEntity eng e dt).x ≤ eng.width ∧
       0 ≤ (PhysicsEngine.updateEntity eng e dt).y ∧
       (PhysicsEngine.updateEntity eng e dt).y ≤ eng.height)) ∧
    (∀ x y w h : ℝ, 0 ≤ w → 0 ≤ h →
      ((x < 0 → (Utils.wrapPosition x y w h).x = w) ∧
       (w < x → (Utils.wrapPosition x y w h).x = 0) ∧
       (y < 0 → (Utils.wrapPosition x y w h).y = h) ∧
       (h < y → (Utils.wrapPosition x y w h).y = 0))) := by
  constructor
  · intro eng e p dt hp hsw hw hh
    simp only [PhysicsEngine.updateEntity, hp, hsw, if_true]
    exact wrapPosition_mem _ _ _ _ hw hh
  · intro x y w h hw hh
    simp only [Utils.wrapPosition]
    refine ⟨fun hx => ?_, fun hx => ?_, fun hy => ?_, fun hy => ?_⟩ <;>
      (split_ifs <;> first | rfl | linarith)

/-- Witness for C3 (amended) at a concrete entity and concrete wrap
inputs. -/
theorem updateEntity_wrap_closed_box_witness :
    (0 ≤ (PhysicsEngine.updateEntity (PhysicsEngine.init 800 600) fastLeftEntity 1000).x ∧
     (PhysicsEngine.updateEntity (PhysicsEngine.init 800 600) fastLeftEntity 1000).x ≤
       (PhysicsEngine.init 800 600).width) ∧
    (Utils.wrapPosition (-1) 5 800 600).x = 800 :=
  have h1 := updateEntity_wrap_closed_box.1 (PhysicsEngine.init 800 600) fastLeftEntity
    _ 1000 rfl rfl (by norm_num [PhysicsEngine.init]) (by norm_num [PhysicsEngine.init])
  have h2 := (updateEntity_wrap_closed_box.2 (-1) 5 800 600 (by norm_num)
    (by norm_num)).1 (by norm_num)
  ⟨⟨h1.1, h1.2.1⟩, h2⟩

/-- Claim C6: for two colliding entities of equal mass (restitution 1 on
both bodies), handleCollision preserves the sum of the two velocity
vectors exactly, in every branch — no collision, zero-distance skip,
separating-velocities skip, and the impulse branch. -/
theorem handleCollision_momentum (e1 e2 : Entity) (p1 p2 : Physics)
    (h1 : e1.physics = some p1) (h2 : e2.physics = some p2)
    (hm : p1.mass = p2.mass) (_hr1 : p1.restitution = 1) (_hr2 : p2.restitution = 1) :
    (velOf (PhysicsEngine.handleCollision e1 e2).1).x +
      (velOf (PhysicsEngine.handleCollision e1 e2).2).x =
      p1.velocity.x + p2.velocity.x ∧
    (velOf (PhysicsEngine.handleCollision e1 e2).1).y +
      (velOf (PhysicsEngine.handleCollision e1 e2).2).y =
      p1.velocity.y + p2.velocity.y := by
  simp only [PhysicsEngine.handleCollision, h1, h2]
  split_ifs with hcc hd hov hsep hsep2
  all_goals simp only [velOf, h1, h2]
  all_goals refine ⟨?_, ?_⟩
  all_goals first | trivial | (rw [hm]; ring)

/-- A concrete colliding body for the momentum witness. -/
noncomputable def collPhysA : Physics :=
  { mass := 2, velocity := ⟨3, 0⟩, acceleration := ⟨0, 0⟩, force := ⟨0, 0⟩
    damping := 1, maxVelocity := none, collisionRadius := 3, restitution := 1
    screenWrap := true, isStatic := false }

/-- The second colliding body: same mass and restitution, different
velocity. -/
noncomputable def collPhysB : Physics :=
  { collPhysA with velocity := ⟨-1, 2⟩ }

/-- A concrete entity at the origin carrying collPhysA. -/
noncomputable def collEntA : Entity := { x := 0, y := 0, physics := some collPhysA }

/-- A concrete entity at distance 5 carrying collPhysB; the radii sum to
6, so the two entities are in collision. -/
noncomputable def collEntB : Entity := { x := 3, y := 4, physics := some collPhysB }

/-- Witness for C6 at two concrete colliding equal-mass bodies. -/
theorem handleCollision_momentum_witness :
    (velOf (PhysicsEngine.handleCollision collEntA collEntB).1).x +
      (velOf (PhysicsEngine.handleCollision collEntA collEntB).2).x = 3 + -1 ∧
    (velOf (PhysicsEngine.handleCollision collEntA collEntB).1).y +
      (velOf (PhysicsEngine.handleCollision collEntA collEntB).2).y = 0 + 2 :=
  handleCollision_momentum collEntA collEntB collPhysA collPhysB rfl rfl rfl rfl rfl

/-- Helper: a point offset from a center by a polar displacement of
nonnegative length d is at distance exactly d from the center. -/
theorem distance_polar_offset (x y a d : ℝ) (hd : 0 ≤ d) :
    Utils.distance x y (x + Real.cos a * d) (y + Real.sin a * d) = d := by
  simp only [Utils.distance]
  have h1 : (x + Real.cos a * d - x) * (x + Real.cos a * d - x) +
      (y + Real.sin a * d - y) * (y + Real.sin a * d - y) = d ^ 2 := by
    linear_combination d ^ 2 * Real.sin_sq_add_cos_sq a
  rw [h1, Real.sqrt_sq hd]

/-- Claim C7: for every outcome of the random draws (the fragment count
drawn from 2..3 and arbitrary angular offsets), destroying a large
asteroid yields exactly that many medium fragments, each within half the
radius of the original position; destroying a medium asteroid yields
exactly two small fragments; destroying a small asteroid yields no
fragments; and in every case the asteroid's alive flag becomes false. -/
theorem asteroid_fragmentation (a : Asteroid) (count : ℕ) (offsets : ℕ → ℝ)
    (_hc1 : 2 ≤ count) (_hc2 : count ≤ 3) (hr : 0 ≤ a.radius) :
    (asteroidDestroy a count offsets).1.alive = false ∧
    (a.size = "large" →
      (asteroidDestroy a count offsets).2.length = count ∧
      ∀ f ∈ (asteroidDestroy a count offsets).2,
        f.size = "medium" ∧ Utils.distance a.x a.y f.x f.y ≤ a.radius * 0.5) ∧
    (a.size = "medium" →
      (asteroidDestroy a count offsets).2.length = 2 ∧
      ∀ f ∈ (asteroidDestroy a count offsets).2, f.size = "small") ∧
    (a.size = "small" → (asteroidDestroy a count offsets).2 = []) := by
  have hhalf : 0 ≤ a.radius * 0.5 := by
    have : (0 : ℝ) ≤ 0.5 := by norm_num
    exact mul_nonneg hr this
  have hhalf2 : 0 ≤ a.radius * (1 / 2 : ℝ) := by
    have : (0 : ℝ) ≤ 1 / 2 := by norm_num
    exact mul_nonneg hr this
  refine ⟨rfl, ?_, ?_, ?_⟩
  · intro hs
    simp only [asteroidDestroy, createFragments, hs]
    norm_num [mkAsteroid]
    intro f hf
    rw [distance_polar_offset a.x a.y _ _ hhalf2]
  · intro hs
    simp [asteroidDestroy, createFragments, hs, mkAsteroid]
  · intro hs
    simp [asteroidDestroy, createFragments, hs]

/-- The all-zero angular offset draw, a possible outcome of the random
offsets. -/
noncomputable def zeroOffsets : ℕ → ℝ := fun _ => 0

/-- Witness for C7: destroying a concrete large asteroid with fragment
count 2 and zero offsets. -/
theorem asteroid_fragmentation_witness :
    (asteroidDestroy (mkAsteroid 0 0 "large") 2 zeroOffsets).1.alive = false ∧
    (asteroidDestroy (mkAsteroid 0 0 "large") 2 zeroOffsets).2.length = 2 :=
  have hr : (0 : ℝ) ≤ (mkAsteroid 0 0 "large").radius := by
    have h40 : (mkAsteroid 0 0 "large").radius = 40 := by
      simp [mkAsteroid, getSizeData]
    rw [h40]
    norm_num
  have h := asteroid_fragmentation (mkAsteroid 0 0 "large") 2 zeroOffsets
    (le_refl 2) (by norm_num) hr
  ⟨h.1, (h.2.1 rfl).1⟩

/-- Helper: a present numeric option with default 0 is returned as is. -/
theorem orDefault_some_zero (r : ℝ) : orDefault (some r) 0 = r := by
  by_cases h : r = 0 <;> simp [orDefault, h]

/-- Helper: a present nonzero numeric option beats its default. -/
theorem orDefault_some_ne (r d : ℝ) (h : r ≠ 0) : orDefault (some r) d = r := by
  simp [orDefault, h]

/-- The physics component of an enemy ship as built by its constructor
options, with a nonzero current velocity. -/
noncomputable def enemyPhysics : Physics :=
  { mass := 1, velocity := ⟨10, 0⟩, acceleration := ⟨0, 0⟩, force := ⟨0, 0⟩
    damping := 0.99, maxVelocity := some 150, collisionRadius := 12, restitution := 0.8
    screenWrap := true, isStatic := false }

/-- An enemy ship as the owner a Blaster reads: facing angle 0, size 20,
moving at velocity (10, 0). -/
noncomputable def enemyOwner : Owner := ⟨0, 0, 0, 20, some enemyPhysics⟩

/-- A Blaster configuration with the class defaults (fire rate 200,
damage 20, projectile speed 400, lifetime 2000). -/
noncomputable def enemyBlaster : WeaponCfg :=
  { fireRate := 200, lastFired := 0, damage := 20, projectileSpeed := 400
    projectileLifetime := 2000 }

/-- The x component of a projectile's velocity. -/
def projVelX (p : Projectile) : ℝ := p.physics.velocity.x

/-- Counterexample for C1 as stated: a Blaster fired by a non-player
owner moving at velocity (10, 0) spawns a projectile whose x velocity is
405 = 400 + 10 times 0.5, not the owner-direction speed 400 — the
half-owner-velocity bonus applies to non-player weapons too. -/
theorem blaster_velocity_counterexample :
    Option.elim ((blasterFire enemyBlaster enemyOwner 1000).2) 0 projVelX = 405 ∧
    (Utils.fromAngle enemyOwner.rotation enemyBlaster.projectileSpeed).x = 400 ∧
    (405 : ℝ) ≠ 400 := by
  refine ⟨?_, ?_, by norm_num⟩
  · norm_num [blasterFire, enemyBlaster, enemyOwner, enemyPhysics, mkProjectile,
      orDefault, projVelX, Utils.fromAngle, Real.cos_zero]
  · norm_num [Utils.fromAngle, enemyOwner, enemyBlaster, Real.cos_zero]

/-- Claim C1 (amended): the Projectile constructor itself adds half the
owner's velocity to the rotation-aligned direction at projectile speed
whenever the passed owner has a physics component, and no bonus when the
owner has none; consequently the player weapon and the non-player
weapons (which all pass their owner) spawn projectiles with the same
half-owner-velocity bonus. -/
theorem projectile_velocity_bonus_uniform :
    (∀ x y : ℝ, ∀ o : ProjectileOptions, ∀ ow : Owner, ∀ op : Physics,
      o.owner = some ow → ow.physics = some op →
      (mkProjectile x y o).physics.velocity =
        ⟨(Utils.fromAngle (orDefault o.rotation 0) (orDefault o.speed 300)).x +
           op.velocity.x * 0.5,
         (Utils.fromAngle (orDefault o.rotation 0) (orDefault o.speed 300)).y +
           op.velocity.y * 0.5⟩) ∧
    (∀ x y : ℝ, ∀ o : ProjectileOptions, ∀ ow : Owner,
      o.owner = some ow → ow.physics = none →
      (mkProjectile x y o).physics.velocity =
        Utils.fromAngle (orDefault o.rotation 0) (orDefault o.speed 300)) ∧
    (∀ pl : Player, ∀ now : ℝ, ∀ op : Physics, ∀ pr : Projectile,
      pl.physics = some op → (playerFire pl now).2 = some pr →
      pr.physics.velocity =
        ⟨(Utils.fromAngle pl.rotation 400).x + op.velocity.x * 0.5,
         (Utils.fromAngle pl.rotation 400).y + op.velocity.y * 0.5⟩) ∧
    (∀ cfg : WeaponCfg, ∀ ow : Owner, ∀ now : ℝ, ∀ op : Physics, ∀ pr : Projectile,
      ow.physics = some op → cfg.projectileSpeed ≠ 0 →
      (blasterFire cfg ow now).2 = some pr →
      pr.physics.velocity =
        ⟨(Utils.fromAngle ow.rotation cfg.projectileSpeed).x + op.velocity.x * 0.5,
         (Utils.fromAngle ow.rotation cfg.projectileSpeed).y + op.velocity.y * 0.5⟩) := by
  have hbase : ∀ x y : ℝ, ∀ o : ProjectileOptions, ∀ ow : Owner, ∀ op : Physics,
      o.owner = some ow → ow.physics = some op →
      (mkProjectile x y o).physics.velocity =
        ⟨(Utils.fromAngle (orDefault o.rotation 0) (orDefault o.speed 300)).x +
           op.velocity.x * 0.5,
         (Utils.fromAngle (orDefault o.rotation 0) (orDefault o.speed 300)).y +
           op.velocity.y * 0.5⟩ := by
    intro x y o ow op ho hop
    simp [mkProjectile, ho, hop, Utils.fromAngle]
  refine ⟨hbase, ?_, ?_, ?_⟩
  · intro x y o ow ho hop
    simp [mkProjectile, ho, hop, Utils.fromAngle]
  · intro pl now op pr hp hpr
    by_cases hg : now - pl.weapon.lastFired < pl.weapon.fireRate ∨
        pl.weapon.overheated = true
    · simp [playerFire, hg] at hpr
    · simp only [playerFire, hg, if_false, Option.some.injEq] at hpr
      subst hpr
      have hown : (Player.toOwner pl).physics = some op := by
        simp [Player.toOwner, hp]
      rw [hbase _ _ _ pl.toOwner op rfl hown]
      simp only [orDefault_some_zero, orDefault_some_ne 400 300 (by norm_num)]
  · intro cfg ow now op pr hop hsp hpr
    by_cases hg : now - cfg.lastFired < cfg.fireRate
    · simp [blasterFire, hg] at hpr
    · simp only [blasterFire, hg, if_false, Option.some.injEq] at hpr
      subst hpr
      rw [hbase _ _ _ ow op rfl hop]
      simp only [orDefault_some_zero, orDefault_some_ne cfg.projectileSpeed 300 hsp]

/-- The options record an enemy Blaster passes when spawning its
projectile. -/
noncomputable def enemyShotOptions : ProjectileOptions :=
  { rotation := some enemyOwner.rotation
    owner := some enemyOwner
    damage := some enemyBlaster.damage
    speed := some enemyBlaster.projectileSpeed
    lifetime := some enemyBlaster.projectileLifetime }

/-- Witness for C1 (amended) at a concrete enemy-owned projectile. -/
theorem projectile_velocity_bonus_uniform_witness :
    (mkProjectile 20 0 enemyShotOptions).physics.velocity =
      ⟨(Utils.fromAngle (orDefault enemyShotOptions.rotation 0)
          (orDefault enemyShotOptions.speed 300)).x + enemyPhysics.velocity.x * 0.5,
       (Utils.fromAngle (orDefault enemyShotOptions.rotation 0)
          (orDefault enemyShotOptions.speed 300)).y + enemyPhysics.velocity.y * 0.5⟩ :=
  projectile_velocity_bonus_uniform.1 20 0 enemyShotOptions enemyOwner enemyPhysics rfl rfl

/-- Helper: a successful fire below the heat cap adds heatPerShot,
leaves the overheat flag clear, stamps the time and spawns a
projectile. -/
theorem playerFire_cool_step (pl : Player) (now : ℝ)
    (hov : pl.weapon.overheated = false)
    (ht : pl.weapon.fireRate ≤ now - pl.weapon.lastFired)
    (hcool : ¬ pl.weapon.maxHeat ≤ pl.weapon.heat + pl.weapon.heatPerShot) :
    (playerFire pl now).1.weapon = { pl.weapon with
      heat := pl.weapon.heat + pl.weapon.heatPerShot
      overheated := false
      lastFired := now } ∧
    (playerFire pl now).2.isSome = true := by
  have hg : ¬ (now - pl.weapon.lastFired < pl.weapon.fireRate ∨
      pl.weapon.overheated = true) := by
    rintro (hlt | hob)
    · exact absurd hlt (not_lt.mpr ht)
    · rw [hov] at hob
      exact Bool.false_ne_true hob
  simp only [playerFire, hg, if_false]
  refine ⟨?_, rfl⟩
  rw [if_neg hcool, hov]

/-- Helper: a successful fire that reaches the heat cap latches the
overheat flag while still spawning its projectile. -/
theorem playerFire_hot_step (pl : Player) (now : ℝ)
    (hov : pl.weapon.overheated = false)
    (ht : pl.weapon.fireRate ≤ now - pl.weapon.lastFired)
    (hhot : pl.weapon.maxHeat ≤ pl.weapon.heat + pl.weapon.heatPerShot) :
    (playerFire pl now).1.weapon = { pl.weapon with
      heat := pl.weapon.heat + pl.weapon.heatPerShot
      overheated := true
      lastFired := now } ∧
    (playerFire pl now).2.isSome = true := by
  have hg : ¬ (now - pl.weapon.lastFired < pl.weapon.fireRate ∨
      pl.weapon.overheated = true) := by
    rintro (hlt | hob)
    · exact absurd hlt (not_lt.mpr ht)
    · rw [hov] at hob
      exact Bool.false_ne_true hob
  simp only [playerFire, hg, if_false]
  refine ⟨?_, rfl⟩
  rw [if_pos hhot]

/-- Claim C5: from the player's initial weapon (heat 0, heatPerShot 15,
maxHeat 100), seven fire calls spaced at least one fire-rate interval
apart with no cooldown in between all spawn projectiles, ending with
heat at least 100 and the overheated flag latched; while overheated, any
fire call spawns nothing and leaves the player unchanged; and after an
updateWeapon step the flag clears exactly when the decayed heat has
fallen below 30% of max heat. -/
theorem weapon_heat_overheat_cycle :
    (∀ pl : Player, ∀ t1 t2 t3 t4 t5 t6 t7 : ℝ,
      pl.weapon = playerInitialWeapon →
      playerInitialWeapon.fireRate ≤ t1 →
      t1 + playerInitialWeapon.fireRate ≤ t2 →
      t2 + playerInitialWeapon.fireRate ≤ t3 →
      t3 + playerInitialWeapon.fireRate ≤ t4 →
      t4 + playerInitialWeapon.fireRate ≤ t5 →
      t5 + playerInitialWeapon.fireRate ≤ t6 →
      t6 + playerInitialWeapon.fireRate ≤ t7 →
      ((fireMany pl [t1, t2, t3, t4, t5, t6, t7]).1.weapon.heat ≥ 100 ∧
       (fireMany pl [t1, t2, t3, t4, t5, t6, t7]).1.weapon.overheated = true ∧
       (fireMany pl [t1, t2, t3, t4, t5, t6, t7]).2 = 7)) ∧
    (∀ pl : Player, ∀ now : ℝ, pl.weapon.overheated = true →
      playerFire pl now = (pl, none)) ∧
    (∀ w : Weapon, ∀ dt : ℝ, w.overheated = true →
      ((updateWeapon w dt).overheated = false ↔
        (updateWeapon w dt).heat < w.maxHeat * 0.3)) := by
  refine ⟨?_, ?_, ?_⟩
  · intro pl t1 t2 t3 t4 t5 t6 t7 hw h1 h2 h3 h4 h5 h6 h7
    have hfr : playerInitialWeapon.fireRate = 200 := rfl
    rw [hfr] at h1 h2 h3 h4 h5 h6 h7
    have s1 := playerFire_cool_step pl t1
      (by rw [hw]; rfl)
      (by rw [hw]; show (200 : ℝ) ≤ t1 - 0; linarith)
      (by rw [hw]; show ¬ (100 : ℝ) ≤ 0 + 15; norm_num)
    rw [hw] at s1
    norm_num [playerInitialWeapon] at s1
    have s2 := playerFire_cool_step (playerFire pl t1).1 t2
      (by rw [s1.1])
      (by rw [s1.1]; show (200 : ℝ) ≤ t2 - t1; linarith)
      (by rw [s1.1]; show ¬ (100 : ℝ) ≤ 15 + 15; norm_num)
    rw [s1.1] at s2
    norm_num at s2
    have s3 := playerFire_cool_step (playerFire (playerFire pl t1).1 t2).1 t3
      (by rw [s2.1])
      (by rw [s2.1]; show (200 : ℝ) ≤ t3 - t2; linarith)
      (by rw [s2.1]; show ¬ (100 : ℝ) ≤ 30 + 15; norm_num)
    rw [s2.1] at s3
    norm_num at s3
    have s4 := playerFire_cool_step
      (playerFire (playerFire (playerFire pl t1).1 t2).1 t3).1 t4
      (by rw [s3.1])
      (by rw [s3.1]; show (200 : ℝ) ≤ t4 - t3; linarith)
      (by rw [s3.1]; show ¬ (100 : ℝ) ≤ 45 + 15; norm_num)
    rw [s3.1] at s4
    norm_num at s4
    have s5 := playerFire_cool_step
      (playerFire (playerFire (playerFire (playerFire pl t1).1 t2).1 t3).1 t4).1 t5
      (by rw [s4.1])
      (by rw [s4.1]; show (200 : ℝ) ≤ t5 - t4; linarith)
      (by rw [s4.1]; show ¬ (100 : ℝ) ≤ 60 + 15; norm_num)
    rw [s4.1] at s5
    norm_num at s5
    have s6 := playerFire_cool_step
      (playerFire (playerFire (playerFire (playerFire (playerFire pl t1).1 t2).1
        t3).1 t4).1 t5).1 t6
      (by rw [s5.1])
      (by rw [s5.1]; show (200 : ℝ) ≤ t6 - t5; linarith)
      (by rw [s5.1]; show ¬ (100 : ℝ) ≤ 75 + 15; norm_num)
    rw [s5.1] at s6
    norm_num at s6
    have s7 := playerFire_hot_step
      (playerFire (playerFire (playerFire (playerFire (playerFire (playerFire
        pl t1).1 t2).1 t3).1 t4).1 t5).1 t6).1 t7
      (by rw [s6.1])
      (by rw [s6.1]; show (200 : ℝ) ≤ t7 - t6; linarith)
      (by rw [s6.1]; show (100 : ℝ) ≤ 90 + 15; norm_num)
    rw [s6.1] at s7
    norm_num at s7
    simp only [fireMany]
    refine ⟨?_, ?_, ?_⟩
    · rw [s7.1]
      norm_num
    · rw [s7.1]
    · simp only [s1.2, s2.2, s3.2, s4.2, s5.2, s6.2, s7.2, if_true]
  · intro pl now hov
    simp [playerFire, hov]
  · intro w dt hov
    simp only [updateWeapon]
    split_ifs with hh hc hc2 <;> simp_all

/-- A player in initial state, for instantiating the heat claim. -/
noncomputable def freshPlayer : Player :=
  { x := 400, y := 300, rotation := 0, size := 15
    weapon := playerInitialWeapon, physics := none }

/-- Witness for C5: seven shots at times 200, 400, ..., 1400. -/
theorem weapon_heat_overheat_cycle_witness :
    (fireMany freshPlayer [200, 400, 600, 800, 1000, 1200, 1400]).1.weapon.overheated =
      true ∧
    (fireMany freshPlayer [200, 400, 600, 800, 1000, 1200, 1400]).2 = 7 :=
  have h := weapon_heat_overheat_cycle.1 freshPlayer 200 400 600 800 1000 1200 1400
    rfl (by norm_num [playerInitialWeapon]) (by norm_num [playerInitialWeapon])
    (by norm_num [playerInitialWeapon]) (by norm_num [playerInitialWeapon])
    (by norm_num [playerInitialWeapon]) (by norm_num [playerInitialWeapon])
    (by norm_num [playerInitialWeapon])
  ⟨h.2.1, h.2.2⟩
